import Mathlib

/-!
Verification of the YouTube summarizer's result-store, stream-tee,
JSON-repair and dedup-tracker core against its source.

The shallow embedding below translates the Python source files
(`utils.py`, `main.py`, `new_video_check.py`, `transcript_downloader.py`)
into executable Lean definitions:

* Python `dict`s become insertion-ordered association lists
  (`List (String × α)`); `d[k] = v` keeps an existing key's position and
  appends a fresh key at the end, exactly as CPython does.
* JSON documents become the inductive type `Json`; `json.loads` is
  modelled by the fuel-driven recursive-descent parser `json_loads`
  covering the fragment the repository produces and repairs (null,
  booleans, integers, strings with escapes, arrays, objects; floats are
  out of scope).  The parser rejects exactly what Python's strict decoder
  rejects on this fragment: single quotes, Python literals, trailing
  commas, raw control characters inside strings, trailing garbage.
* The file system becomes a map `String → Option α`; opening a file in
  mode "w" truncates it at once, as in CPython.
* A generator is modelled by the list of fragments it yields, in order.
* Fallible operations return `Option`/`Except`, or a result type carrying
  the post-state, mirroring raised exceptions.
-/

/-! ## Association lists: the model of Python dicts -/

/-- First-match lookup in an insertion-ordered association list
(Python `d[k]` / `k in d`). -/
def lookupA {α : Type} : List (String × α) → String → Option α
  | [], _ => none
  | (k, v) :: rest, key => if k = key then some v else lookupA rest key

/-- Python `d[k] = v`: an existing key keeps its position and gets the new
value; a fresh key is appended at the end (CPython insertion order). -/
def assocSet {α : Type} : List (String × α) → String → α → List (String × α)
  | [], k, v => [(k, v)]
  | (k', v') :: rest, k, v =>
      if k' = k then (k', v) :: rest else (k', v') :: assocSet rest k v

/-- A file system keyed by path; `none` means no file at that path. -/
def fsWrite {α : Type} (fs : String → Option α) (p : String) (c : α) :
    String → Option α :=
  fun q => if q = p then some c else fs q

/-! ## JSON values -/

/-- JSON values as Python's `json` module produces them, with objects kept
as insertion-ordered association lists and numbers restricted to the
integer fragment used by this repository. -/
inductive Json where
  | null : Json
  | bool (b : Bool) : Json
  | num (n : Int) : Json
  | str (s : String) : Json
  | arr (elems : List Json) : Json
  | obj (fields : List (String × Json)) : Json
deriving Repr

/-! ## Store traversal (`utils.key_exists`, `main.key_exists`) -/

/-- `utils.py:19` `key_exists(keys, dictionary)`: walk the nested mappings
key by key; any absent key or non-mapping intermediate returns `False`.
`main.py:54` is the same loop over the module-global store, which the
embedding passes explicitly. -/
def key_exists (keys : List String) (dictionary : Json) : Bool :=
  match keys, dictionary with
  | [], _ => true
  | k :: ks, .obj fields =>
      match lookupA fields k with
      | some v => key_exists ks v
      | none => false
  | _ :: _, _ => false

/-- The spec's `get(store, keyPath)`: the value reached by the same
traversal `key_exists` performs, `none` when the path is missing. -/
def getPath (keys : List String) (d : Json) : Option Json :=
  match keys, d with
  | [], v => some v
  | k :: ks, .obj fields =>
      match lookupA fields k with
      | some v => getPath ks v
      | none => none
  | _ :: _, _ => none

/-- State-passing translation of `key_exists`: every dictionary access the
Python loop performs is a pure read, so the traversal rebuilds each
sub-dictionary it visited with the value it read back in place.  The
returned `Json` is the store as it stands after the query. -/
def key_existsEff (keys : List String) (dictionary : Json) : Bool × Json :=
  match keys, dictionary with
  | [], d => (true, d)
  | k :: ks, .obj fields =>
      match lookupA fields k with
      | some v =>
          let r := key_existsEff ks v
          (r.1, .obj (assocSet fields k r.2))
      | none => (false, .obj fields)
  | _ :: _, d => (false, d)

/-! ## A model of Python `json.loads` (strict decoder, integer fragment) -/

/-- JSON whitespace as Python's decoder skips it. -/
def isJsonWs (c : Char) : Bool :=
  c = ' ' || c = '\t' || c = '\n' || c = '\r'

/-- Drop leading JSON whitespace. -/
def skipWs : List Char → List Char
  | [] => []
  | c :: rest => if isJsonWs c then skipWs rest else c :: rest

/-- Value of one hex digit. -/
def hexVal (c : Char) : Option Nat :=
  if '0' ≤ c ∧ c ≤ '9' then some (c.toNat - '0'.toNat)
  else if 'a' ≤ c ∧ c ≤ 'f' then some (c.toNat - 'a'.toNat + 10)
  else if 'A' ≤ c ∧ c ≤ 'F' then some (c.toNat - 'A'.toNat + 10)
  else none

/-- One-character JSON string escapes. -/
def escChar (c : Char) : Option Char :=
  if c = '"' then some '"'
  else if c = '\\' then some '\\'
  else if c = '/' then some '/'
  else if c = 'b' then some (Char.ofNat 8)
  else if c = 'f' then some (Char.ofNat 12)
  else if c = 'n' then some '\n'
  else if c = 'r' then some '\r'
  else if c = 't' then some '\t'
  else none

/-- Body of a JSON string after the opening quote: the decoded characters
and the input after the closing quote.  Python's strict decoder rejects a
raw control character inside a string, which is what the repair pipeline's
control-stripping step exists for. -/
def parseStrChars : List Char → Option (List Char × List Char)
  | [] => none
  | '"' :: rest => some ([], rest)
  | '\\' :: 'u' :: a :: b :: c :: d :: rest =>
      (match hexVal a, hexVal b, hexVal c, hexVal d with
       | some ha, some hb, some hc, some hd =>
           (parseStrChars rest).map fun r =>
             (Char.ofNat (((ha * 16 + hb) * 16 + hc) * 16 + hd) :: r.1, r.2)
       | _, _, _, _ => none)
  | '\\' :: e :: rest =>
      (match escChar e with
       | some ec => (parseStrChars rest).map fun r => (ec :: r.1, r.2)
       | none => none)
  | c :: rest =>
      if c.toNat < 32 then none
      else (parseStrChars rest).map fun r => (c :: r.1, r.2)

/-- Natural-number value of a digit run. -/
def digitsToNat (ds : List Char) : Nat :=
  ds.foldl (fun acc c => acc * 10 + (c.toNat - '0'.toNat)) 0

/-- A JSON integer: optional minus, digits without a superfluous leading
zero, not continued by a fraction or exponent (floats are outside the
modelled fragment; no input of this development contains one). -/
def parseNum (s : List Char) : Option (Int × List Char) :=
  let core : List Char → Option (Nat × List Char) := fun t =>
    let ds := t.takeWhile Char.isDigit
    let rest := t.dropWhile Char.isDigit
    if ds = [] then none
    else if ds.head? = some '0' ∧ ds.length > 1 then none
    else if rest.head? = some '.' ∨ rest.head? = some 'e' ∨ rest.head? = some 'E'
    then none
    else some (digitsToNat ds, rest)
  match s with
  | '-' :: rest => (core rest).map fun r => (-(r.1 : Int), r.2)
  | _ => (core s).map fun r => ((r.1 : Int), r.2)

/-- What the recursive-descent parser is currently reading: one value, the
remaining items of an array, or the remaining fields of an object. -/
inductive PReq where
  | val : PReq
  | arrItems (acc : List Json) : PReq
  | objItems (acc : List (String × Json)) : PReq

/-- Fuel-driven recursive descent for the JSON fragment; the fuel only
bounds nesting and item count, every step consumes input.  Object fields
repeat a key last-wins, as Python dicts do. -/
def parseF : Nat → PReq → List Char → Option (Json × List Char)
  | 0, _, _ => none
  | Nat.succ fuel, .val, s =>
      (match skipWs s with
       | 'n' :: 'u' :: 'l' :: 'l' :: rest => some (.null, rest)
       | 't' :: 'r' :: 'u' :: 'e' :: rest => some (.bool true, rest)
       | 'f' :: 'a' :: 'l' :: 's' :: 'e' :: rest => some (.bool false, rest)
       | '"' :: rest =>
           (parseStrChars rest).map fun r => (.str (String.mk r.1), r.2)
       | '[' :: rest =>
           (match skipWs rest with
            | ']' :: r => some (.arr [], r)
            | _ => parseF fuel (.arrItems []) rest)
       | '{' :: rest =>
           (match skipWs rest with
            | '}' :: r => some (.obj [], r)
            | _ => parseF fuel (.objItems []) rest)
       | rest => (parseNum rest).map fun r => (.num r.1, r.2))
  | Nat.succ fuel, .arrItems acc, s =>
      (match parseF fuel .val s with
       | some (j, r) =>
           (match skipWs r with
            | ',' :: r2 => parseF fuel (.arrItems (acc ++ [j])) r2
            | ']' :: r2 => some (.arr (acc ++ [j]), r2)
            | _ => none)
       | none => none)
  | Nat.succ fuel, .objItems acc, s =>
      (match skipWs s with
       | '"' :: rest =>
           (match parseStrChars rest with
            | some (kcs, r) =>
                (match skipWs r with
                 | ':' :: r2 =>
                     (match parseF fuel .val r2 with
                      | some (v, r3) =>
                          (match skipWs r3 with
                           | ',' :: r4 =>
                               parseF fuel
                                 (.objItems (assocSet acc (String.mk kcs) v)) r4
                           | '}' :: r4 =>
                               some (.obj (assocSet acc (String.mk kcs) v), r4)
                           | _ => none)
                      | none => none)
                 | _ => none)
            | none => none)
       | _ => none)

/-- `json.loads`: parse one value and require only whitespace after it. -/
def json_loads (s : String) : Option Json :=
  let cs := s.toList
  match parseF (2 * cs.length + 2) .val cs with
  | some (v, rest) => if skipWs rest = [] then some v else none
  | none => none

/-! ## Text transforms used by the repair pipeline (`utils.py:237`) -/

/-- Python `str.replace`: non-overlapping replacement scanning left to
right.  The fuel is the input length; each step consumes at least one
character. -/
def replaceChars : Nat → List Char → List Char → List Char → List Char
  | 0, s, _, _ => s
  | _, [], _, _ => []
  | Nat.succ fuel, c :: rest, pat, repl =>
      if pat.isPrefixOf (c :: rest) then
        repl ++ replaceChars fuel ((c :: rest).drop pat.length) pat repl
      else
        c :: replaceChars fuel rest pat repl

/-- `s.replace(pat, repl)` on strings. -/
def pyReplace (s pat repl : String) : String :=
  String.mk (replaceChars s.length s.toList pat.toList repl.toList)

/-- Python `\s` on the ASCII plane: the whitespace class of the
trailing-comma regex. -/
def isPySpace (c : Char) : Bool :=
  c = ' ' || c = '\t' || c = '\n' || c = '\r' || c = '\x0b' || c = '\x0c'

/-- `re.sub(r",(\s*[}\]])", r"\1", s)`: drop a comma standing directly
before optional whitespace and a closing brace or bracket; scanning
resumes after the matched region. -/
def rtcChars : Nat → List Char → List Char
  | 0, s => s
  | _, [] => []
  | Nat.succ fuel, c :: rest =>
      if c = ',' then
        let ws := rest.takeWhile isPySpace
        let tail := rest.dropWhile isPySpace
        match tail with
        | '}' :: r => ws ++ '}' :: rtcChars fuel r
        | ']' :: r => ws ++ ']' :: rtcChars fuel r
        | _ => ',' :: rtcChars fuel rest
      else c :: rtcChars fuel rest

/-- Step 4 of `clean_and_parse_json`: remove trailing commas before a
closing `}` or `]`. -/
def removeTrailingCommas (s : String) : String :=
  String.mk (rtcChars s.length s.toList)

/-- `re.sub(r"[\x00-\x1F\x7F]", "", s)`: strip control characters. -/
def stripControl (s : String) : String :=
  String.mk (s.toList.filter fun c => ¬(c.toNat ≤ 31 ∨ c.toNat = 127))

/-- Step 3 of `clean_and_parse_json`: the chained `str.replace` calls that
turn quasi-JSON into JSON (single quotes to double quotes, Python literals
to JSON literals), in the source's order. -/
def normalizeQuasi (s : String) : String :=
  pyReplace (pyReplace (pyReplace (pyReplace s "'" "\"") "True" "true")
    "False" "false") "None" "null"

/-- Index of the last occurrence of `c`. -/
def lastIdx (c : Char) : List Char → Option Nat
  | [] => none
  | x :: rest =>
      match lastIdx c rest with
      | some j => some (j + 1)
      | none => if x = c then some 0 else none

/-- `re.search(r"(\[.*\]|\{.*\})", s, re.DOTALL)`: at the leftmost
position holding `[` (with a `]` somewhere later) or `{` (with a `}`
somewhere later), the greedy match runs to the last such closer in the
whole string. -/
def extractFromChars : List Char → Option (List Char)
  | [] => none
  | c :: rest =>
      if c = '[' then
        match lastIdx ']' rest with
        | some j => some ('[' :: rest.take (j + 1))
        | none => extractFromChars rest
      else if c = '{' then
        match lastIdx '}' rest with
        | some j => some ('{' :: rest.take (j + 1))
        | none => extractFromChars rest
      else extractFromChars rest

/-- Step 2 of `clean_and_parse_json`: the first JSON-like substring. -/
def extractJsonLike (s : String) : Option String :=
  (extractFromChars s.toList).map String.mk

/-! ## `utils.clean_and_parse_json` (ResultRepair) -/

/-- The failures `clean_and_parse_json` raises: `ValueError` with its
fixed message when no JSON-like block is found, and `json.JSONDecodeError`
carrying the document that was being parsed when the last attempt fails.
`parseFailed` is the spec's `ParseError` carrying the original raw text,
used by the spec-modelled pipeline. -/
inductive ParseErr where
  | noJsonBlock (msg : String) : ParseErr
  | decodeError (doc : String) : ParseErr
  | parseFailed (raw : String) : ParseErr
deriving DecidableEq, Repr

/-- The fixed message of the `ValueError` at `utils.py:261`. -/
def noBlockMsg : String := "Kein JSON-ähnlicher Block im Text gefunden."

/-- `utils.py:237` `clean_and_parse_json(llm_output)` (the optional
`save_path` is `None`: the saving branch writes the already-parsed result
and does not affect the parse).  Attempts, as the source orders them:
direct `json.loads`; extraction of the first JSON-like substring (raising
`ValueError` when there is none); quote and `True`/`False`/`None`
normalization followed by trailing-comma removal, then one retry; control
character stripping, then a final retry whose failure propagates
`json.JSONDecodeError`. -/
def clean_and_parse_json (llm_output : String) : Except ParseErr Json :=
  match json_loads llm_output with
  | some data => .ok data
  | none =>
      match extractJsonLike llm_output with
      | none => .error (.noJsonBlock noBlockMsg)
      | some json_like =>
          let json_like := normalizeQuasi json_like
          let json_like := removeTrailingCommas json_like
          match json_loads json_like with
          | some data => .ok data
          | none =>
              let json_like2 := stripControl json_like
              match json_loads json_like2 with
              | some data => .ok data
              | none => .error (.decodeError json_like2)

/-- Python `str.strip()` on the ASCII plane: drop leading and trailing
whitespace. -/
def pyStrip (s : String) : String :=
  String.mk (((s.toList.dropWhile isPySpace).reverse.dropWhile isPySpace).reverse)

/-- Modelled from the spec: step 2 of the escalating attempts, "strip a
leading/trailing fenced code block marker (a leading three backticks
optionally followed by a language tag, and a matching trailing three
backticks)".  No function of the claimed symbol implements this step; the
definition follows the spec's words for the refinement comparison. -/
def stripFences (s : String) : String :=
  let fence := "```".toList
  let cs := s.toList
  if fence.isPrefixOf cs then
    let t := (cs.drop 3).dropWhile Char.isAlpha
    let t := if fence.isPrefixOf t.reverse then (t.reverse.drop 3).reverse else t
    pyStrip (String.mk t)
  else s

/-- Modelled from the spec: the six-step escalating pipeline of §4.3, each
attempt retrying the parse and short-circuiting on success — direct parse
of the trimmed text; fence stripping; extraction of the first JSON-like
substring and a retry on that substring alone; quote and literal
normalization; trailing-comma removal; control-character stripping; then
`ParseError` carrying the original raw text. -/
def specParse (raw : String) : Except ParseErr Json :=
  let t1 := pyStrip raw
  match json_loads t1 with
  | some v => .ok v
  | none =>
      let t2 := stripFences t1
      match json_loads t2 with
      | some v => .ok v
      | none =>
          match extractJsonLike t2 with
          | none => .error (.parseFailed raw)
          | some t3 =>
              match json_loads t3 with
              | some v => .ok v
              | none =>
                  let t4 := normalizeQuasi t3
                  match json_loads t4 with
                  | some v => .ok v
                  | none =>
                      let t5 := removeTrailingCommas t4
                      match json_loads t5 with
                      | some v => .ok v
                      | none =>
                          let t6 := stripControl t5
                          match json_loads t6 with
                          | some v => .ok v
                          | none => .error (.parseFailed raw)

/-! ## `utils.save_to_json` (persist with backup-on-failure, `utils.py:220`) -/

/-- The outcome of `json.dump(video_dict, f, ...)` on an arbitrary Python
object, abstracted: either the full serialized text, or a failure (for
example a circular reference) after `written` characters reached the
already-open file — `written = ""` is plain truncation. -/
inductive DumpOutcome where
  | ok (text : String) : DumpOutcome
  | fail (written : String) : DumpOutcome

/-- What `save_to_json` leaves behind: a normal return, or the re-raised
exception, each with the file system as the function left it. -/
inductive PersistResult where
  | ok (fs : String → Option String) : PersistResult
  | raised (fs : String → Option String) : PersistResult

/-- The file system a `PersistResult` carries. -/
def PersistResult.fsOf : PersistResult → (String → Option String)
  | .ok fs => fs
  | .raised fs => fs

/-- Whether the call re-raised. -/
def PersistResult.isRaised : PersistResult → Bool
  | .ok _ => false
  | .raised _ => true

/-- `utils.py:220` `save_to_json(video_dict, json_path)`: `open(json_path,
"w")` truncates (or creates) the file at once; then `json.dump` either
writes the serialization or fails after `written` characters; on failure
the `except` block copies whatever now stands at `json_path` to the
timestamped backup path and re-raises.  `now` stands for
`datetime.datetime.now()` formatted as in the source. -/
def save_to_json (dump : DumpOutcome) (json_path now : String)
    (fs : String → Option String) : PersistResult :=
  let fs1 := fsWrite fs json_path ""
  match dump with
  | .ok text => .ok (fsWrite fs1 json_path text)
  | .fail written =>
      let fs2 := fsWrite fs1 json_path written
      let backup := json_path ++ "." ++ now ++ ".bak"
      match fs2 json_path with
      | some content => .raised (fsWrite fs2 backup content)
      | none => .raised fs2

/-! ## `utils.load_json_file` (`utils.py:62`; `main.load_video_dict` is
the same function over the same logic at `main.py:41`) -/

/-- The failure of `json.load` on an existing but undeserializable file
(the spec's `MalformedStoreError`). -/
inductive LoadErr where
  | malformed : LoadErr
deriving DecidableEq, Repr

/-- `utils.py:62` `load_json_file(path)`: deserialize an existing file,
failing when its content does not parse; create the file with an empty
dict (`json.dump({}, f, indent=4)` writes exactly the two brace
characters) and return the empty store when the file is absent. -/
def load_json_file (path : String) (fs : String → Option String) :
    Except LoadErr (Json × (String → Option String)) :=
  match fs path with
  | some content =>
      match json_loads content with
      | some video_dict => .ok (video_dict, fs)
      | none => .error .malformed
  | none => .ok (Json.obj [], fsWrite fs path "\x7b\x7d")

/-! ## `main.save_stream_to_json` (StreamTee, `main.py:150`) -/

/-- Python `d.setdefault(k, {})`: the value at `k` after the call (the
existing one, or a fresh empty dict appended at the end), paired with the
dict after the call. -/
def setdefaultA (d : List (String × Json)) (k : String) :
    Json × List (String × Json) :=
  match lookupA d k with
  | some v => (v, d)
  | none => (Json.obj [], d ++ [(k, Json.obj [])])

/-- The `setdefault` chain of `main.py:163-165` as one store update:
`video_entry = video_dict.setdefault(video_id, {})`,
`target_dict = video_entry.setdefault(target_key, {})`,
`target_dict[language] = result`; the mutation of each shared
sub-dictionary is written back along the path.  `none` is the
`AttributeError` / `TypeError` Python raises when an existing
intermediate value is not a dict. -/
def set_nested (video_dict : List (String × Json))
    (video_id target_key language : String) (result : Json) :
    Option (List (String × Json)) :=
  let s1 := setdefaultA video_dict video_id
  match s1.1 with
  | .obj entry_fields =>
      let s2 := setdefaultA entry_fields target_key
      (match s2.1 with
       | .obj target_fields =>
           some (assocSet s1.2 video_id
             (.obj (assocSet s2.2 target_key
               (.obj (assocSet target_fields language result)))))
       | _ => none)
  | _ => none

/-- What a finished `save_stream_to_json` generator leaves behind: the
fragments it yielded downstream in order, the module-global `video_dict`,
and the file system (documents stored parsed; the `json.dump` at
`main.py:167` serializes the whole store to `path`). -/
structure TeeResult where
  yielded : List String
  video_dict : List (String × Json)
  fs : String → Option Json

/-- `main.py:150` `save_stream_to_json(stream, path, language, video_id,
store, target_key)`: forward every chunk in arrival order while
collecting it; at exhaustion join the buffer; return at once when `store`
is false; otherwise commit the joined result under
`video_id → target_key → language` via the `setdefault` chain and rewrite
the whole store to `path`.  `none` is the error raised when an existing
intermediate value is not a dict. -/
def save_stream_to_json (stream : List String)
    (path language video_id : String) (store : Bool) (target_key : String)
    (video_dict : List (String × Json)) (fs : String → Option Json) :
    Option TeeResult :=
  let collected := stream
  let result := String.join collected
  if store = false then some ⟨collected, video_dict, fs⟩
  else
    match set_nested video_dict video_id target_key language (.str result) with
    | some vd1 => some ⟨collected, vd1, fsWrite fs path (Json.obj vd1)⟩
    | none => none

/-! ## `new_video_check.py`: DedupTracker and the monitor loop -/

/-- One entry of the feed (`fetch_latest_videos`, newest first). -/
structure Video where
  id : String
  title : String
  published : String
  url : String
deriving DecidableEq, Repr

/-- One channel's record in `channel_state.json`: `known_videos` is the
rolling newest-first id window, `analyses` maps video id to the stored
analysis. -/
structure ChannelState where
  name : String
  known_videos : List String
  analyses : List (String × Json)

/-- `new_video_check.py:150` `_update_known_videos(channel_state,
latest_videos)`: prepend the latest ids, keep existing ids not among
them in their existing order, truncate to the first 50. -/
def update_known_videos (channel_state : ChannelState)
    (latest_videos : List Video) : ChannelState :=
  let latest_ids := latest_videos.map Video.id
  let existing := channel_state.known_videos
  let combined := latest_ids ++ existing.filter (fun vid => !latest_ids.contains vid)
  { channel_state with known_videos := combined.take 50 }

/-- `new_video_check.py:192-212`, the per-video loop of `process_channel`
over `reversed(new_videos)` (the caller passes the already-reversed,
oldest-first list): `_fetch_transcript` returns the transcript text or
`""` on any transcript error; an empty transcript skips the video;
otherwise the Gemini analysis is stored under the video's id and appended
to the results.  `fetchT` and `analyze` stand for the transcript and
Gemini collaborators, `now` for `datetime.utcnow().isoformat() + "Z"`. -/
def process_channel_videos (fetchT : String → String)
    (analyze : String → List Json) (now : String) :
    List Video → List (String × Json) → List (Video × List Json) →
    List (String × Json) × List (Video × List Json)
  | [], analyses, results => (analyses, results)
  | video :: rest, analyses, results =>
      let transcript := fetchT video.id
      if transcript = "" then
        process_channel_videos fetchT analyze now rest analyses results
      else
        let stocks := analyze transcript
        let entry := Json.obj [("video", Json.str video.id),
          ("stocks", Json.arr stocks), ("checked_at", Json.str now)]
        process_channel_videos fetchT analyze now rest
          (assocSet analyses video.id entry) (results ++ [(video, stocks)])

/-! ## `transcript_downloader.process_videos` (`transcript_downloader.py:82`) -/

/-- The dict `utils.get_yt_transcript` returns: `success`, `data`,
`error`. -/
inductive TranscriptResult where
  | success (data : String) : TranscriptResult
  | failure (error : String) : TranscriptResult
deriving DecidableEq, Repr

/-- `transcript_downloader.py:86-105`, the per-video loop of
`process_videos`: a video already in the transcript store is skipped; a
failed `get_yt_transcript` prints and `continue`s; a successful fetch
stores the entry and rewrites the store to `transcript_path` (entries
here are plain JSON-serializable data, so `save_to_json` succeeds and the
write is modelled at document level).  `fetch` stands for the
`get_yt_transcript` collaborator, `now` for `datetime.now()`. -/
def process_videos (fetch : String → TranscriptResult)
    (source_name now transcript_path : String) :
    List Video → List (String × Json) → (String → Option Json) →
    List (String × Json) × (String → Option Json)
  | [], transcript_dict, fs => (transcript_dict, fs)
  | video :: rest, transcript_dict, fs =>
      match lookupA transcript_dict video.id with
      | some _ =>
          process_videos fetch source_name now transcript_path rest
            transcript_dict fs
      | none =>
          match fetch video.id with
          | .failure _ =>
              process_videos fetch source_name now transcript_path rest
                transcript_dict fs
          | .success transcript =>
              let video_entry := Json.obj [("name", Json.str source_name),
                ("id", Json.str video.id), ("title", Json.str video.title),
                ("date", Json.str video.published), ("url", Json.str video.url),
                ("processed_on", Json.str now),
                ("transcript", Json.str transcript)]
              let transcript_dict1 := assocSet transcript_dict video.id video_entry
              let fs1 := fsWrite fs transcript_path (Json.obj transcript_dict1)
              process_videos fetch source_name now transcript_path rest
                transcript_dict1 fs1

/-! ## Lemmas about the dict model -/

/-- After `assocSet a k v`, looking `k` up yields `v`. -/
lemma lookupA_assocSet_self {α : Type} (a : List (String × α)) (k : String)
    (v : α) : lookupA (assocSet a k v) k = some v := by
  induction a with
  | nil => simp [assocSet, lookupA]
  | cons hd tl ih =>
      obtain ⟨k', v'⟩ := hd
      by_cases hk : k' = k
      · simp [assocSet, lookupA, hk]
      · simp [assocSet, lookupA, hk, ih]

/-- Writing back the value a key already holds leaves the dict unchanged. -/
lemma assocSet_of_lookupA {α : Type} (a : List (String × α)) (k : String)
    (v : α) (h : lookupA a k = some v) : assocSet a k v = a := by
  induction a with
  | nil => simp [lookupA] at h
  | cons hd tl ih =>
      obtain ⟨k', v'⟩ := hd
      by_cases hk : k' = k
      · subst hk
        simp [lookupA] at h
        simp [assocSet, h]
      · simp [lookupA, hk] at h
        simp [assocSet, hk, ih h]


/-- Read-after-write through the `setdefault` chain: whenever
`set_nested` completes, the committed value sits at the full key path. -/
lemma set_nested_getPath (d : List (String × Json))
    (vid tk lang : String) (v : Json) (d' : List (String × Json))
    (h : set_nested d vid tk lang v = some d') :
    key_exists [vid, tk, lang] (Json.obj d') = true ∧
      getPath [vid, tk, lang] (Json.obj d') = some v := by
  unfold set_nested at h
  simp only [] at h
  split at h
  · split at h
    · injection h with h
      subst h
      constructor
      · simp [key_exists, lookupA_assocSet_self]
      · simp [getPath, lookupA_assocSet_self]
    · cases h
  · cases h

/-! ## The claims -/

/-- C6: `key_exists` walks the nested mappings and returns `false` exactly
when some key along the path is absent or an intermediate value is not a
mapping (it is a total function, so it never raises); on a store in which
no path was ever set — the empty store — every non-empty key path reports
`false`. -/
theorem key_exists_traversal :
    (∀ (keys : List String) (d : Json),
        key_exists keys d = true ↔ ∃ v, getPath keys d = some v)
    ∧ ∀ (k : String) (ks : List String),
        key_exists (k :: ks) (Json.obj []) = false := by
  constructor
  · intro keys
    induction keys with
    | nil => intro d; simp [key_exists, getPath]
    | cons k ks ih =>
        intro d
        cases d with
        | obj fields =>
            cases h : lookupA fields k with
            | none => simp [key_exists, getPath, h]
            | some v => simp [key_exists, getPath, h, ih v]
        | null => simp [key_exists, getPath]
        | bool b => simp [key_exists, getPath]
        | num n => simp [key_exists, getPath]
        | str s => simp [key_exists, getPath]
        | arr xs => simp [key_exists, getPath]
  · intro k ks
    simp [key_exists, lookupA]

/-- C10: the existence query leaves the store completely unchanged — the
state-passing translation of `key_exists` returns the very store it was
given (and the same boolean as the pure traversal), so querying a
never-set path any number of times still leaves that path absent. -/
theorem key_exists_leaves_store_unchanged :
    ∀ (keys : List String) (d : Json),
      key_existsEff keys d = (key_exists keys d, d) := by
  intro keys
  induction keys with
  | nil => intro d; simp [key_existsEff, key_exists]
  | cons k ks ih =>
      intro d
      cases d with
      | obj fields =>
          cases h : lookupA fields k with
          | none => simp [key_existsEff, key_exists, h]
          | some v =>
              simp [key_existsEff, key_exists, h, ih v,
                assocSet_of_lookupA fields k v h]
      | null => simp [key_existsEff, key_exists]
      | bool b => simp [key_existsEff, key_exists]
      | num n => simp [key_existsEff, key_exists]
      | str s => simp [key_existsEff, key_exists]
      | arr xs => simp [key_existsEff, key_exists]

/-- C7, counterexample: `set(store, p, v)` does not succeed on every
store and key path — when an existing intermediate value is a scalar
(here the entity record is a plain string, as the `"transcript"` category
stores one), the `setdefault` chain raises instead of assigning, and the
path still does not exist afterwards. -/
theorem set_nested_scalar_intermediate :
    set_nested [("v1", Json.str "some transcript")] "v1" "summary" "en"
        (Json.str "x") = none
    ∧ key_exists ["v1", "summary", "en"]
        (Json.obj [("v1", Json.str "some transcript")]) = false :=
  ⟨rfl, rfl⟩

/-- C7, amended: whenever the `setdefault` chain of
`save_stream_to_json` completes (that is, every value already present
along the key path is a mapping), the written path exists and lookup
returns exactly the assigned value — read-after-write. -/
theorem set_nested_read_after_write (d : List (String × Json))
    (vid tk lang : String) (v : Json) (d' : List (String × Json))
    (h : set_nested d vid tk lang v = some d') :
    key_exists [vid, tk, lang] (Json.obj d') = true ∧
      getPath [vid, tk, lang] (Json.obj d') = some v :=
  set_nested_getPath d vid tk lang v d' h

/-- C7, witness: committing `"Hello"` at `v1 → summary → en` in the empty
store makes the path exist and hold exactly `"Hello"`. -/
theorem set_nested_read_after_write_witness :
    key_exists ["v1", "summary", "en"]
        (Json.obj [("v1", Json.obj [("summary",
          Json.obj [("en", Json.str "Hello")])])]) = true
    ∧ getPath ["v1", "summary", "en"]
        (Json.obj [("v1", Json.obj [("summary",
          Json.obj [("en", Json.str "Hello")])])]) = some (Json.str "Hello") :=
  set_nested_read_after_write [] "v1" "summary" "en" (Json.str "Hello")
    [("v1", Json.obj [("summary", Json.obj [("en", Json.str "Hello")])])] rfl

/-- C5: `_update_known_videos` sets the known-id list to the latest ids
followed by the existing ids not among them, in their existing order,
truncated to 50; the window never exceeds 50 entries; and from 50 known
ids `id49 … id0` (newest first) and latest fetch `[idNEW, id49]` the new
window is `idNEW, id49, id48, …, id1` — the oldest id `id0` is dropped. -/
theorem update_known_videos_window :
    (∀ (cs : ChannelState) (latest : List Video),
        (update_known_videos cs latest).known_videos
          = ((latest.map Video.id)
              ++ cs.known_videos.filter
                  (fun vid => !(latest.map Video.id).contains vid)).take 50
        ∧ (update_known_videos cs latest).known_videos.length ≤ 50)
    ∧ (update_known_videos
          ⟨"ch", (List.range 50).reverse.map (fun i => "id" ++ toString i), []⟩
          [⟨"idNEW", "t", "p", "u"⟩, ⟨"id49", "t", "p", "u"⟩]).known_videos
        = "idNEW" :: (List.range 49).reverse.map (fun i => "id" ++ toString (i + 1)) := by
  refine ⟨fun cs latest => ⟨rfl, ?_⟩, by decide⟩
  simp only [update_known_videos]
  exact List.length_take_le 50 _

/-- C4: the stream tee yields exactly the received fragments in order;
with the store flag false it returns with the store and the file system
untouched (no key path gains a value); with the flag true, whenever the
commit completes, the concatenation of all fragments sits at
`video_id → target_key → language` and the whole store has been written
to `path`. -/
theorem save_stream_to_json_tee :
    ∀ (stream : List String) (path language video_id target_key : String)
      (video_dict : List (String × Json)) (fs : String → Option Json),
      save_stream_to_json stream path language video_id false target_key
          video_dict fs = some ⟨stream, video_dict, fs⟩
      ∧ ∀ r, save_stream_to_json stream path language video_id true target_key
            video_dict fs = some r →
          r.yielded = stream
          ∧ key_exists [video_id, target_key, language]
              (Json.obj r.video_dict) = true
          ∧ getPath [video_id, target_key, language] (Json.obj r.video_dict)
              = some (Json.str (String.join stream))
          ∧ r.fs path = some (Json.obj r.video_dict) := by
  intro stream path language video_id target_key video_dict fs
  constructor
  · rfl
  · intro r h
    have h' : (match set_nested video_dict video_id target_key language
          (Json.str (String.join stream)) with
        | some vd1 =>
            some (⟨stream, vd1, fsWrite fs path (Json.obj vd1)⟩ : TeeResult)
        | none => none) = some r := h
    rcases hsn : set_nested video_dict video_id target_key language
        (Json.str (String.join stream)) with _ | vd1
    · rw [hsn] at h'
      cases h'
    · rw [hsn] at h'
      injection h' with h'
      subst h'
      refine ⟨rfl, (set_nested_getPath _ _ _ _ _ _ hsn).1,
        (set_nested_getPath _ _ _ _ _ _ hsn).2, ?_⟩
      simp [fsWrite]

/-- C4, witness: fragments `["Hel", "lo"]` committed with the flag true
into the empty store land as `"Hello"` under `v1 → summary → en`. -/
theorem save_stream_to_json_tee_witness :
    key_exists ["v1", "summary", "en"] (Json.obj [("v1", Json.obj [("summary",
        Json.obj [("en", Json.str "Hello")])])]) = true
    ∧ getPath ["v1", "summary", "en"] (Json.obj [("v1", Json.obj [("summary",
        Json.obj [("en", Json.str "Hello")])])])
      = some (Json.str (String.join ["Hel", "lo"])) := by
  have h := (save_stream_to_json_tee ["Hel", "lo"] "video_dict.json" "en" "v1"
      "summary" [] (fun _ => none)).2
    ⟨["Hel", "lo"],
      [("v1", Json.obj [("summary", Json.obj [("en", Json.str "Hello")])])],
      fsWrite (fun _ => none) "video_dict.json"
        (Json.obj [("v1", Json.obj [("summary",
          Json.obj [("en", Json.str "Hello")])])])⟩ rfl
  exact ⟨h.2.1, h.2.2.1⟩

/-- C8: `load_json_file` never fails on a missing file — it creates the
file holding an empty document and returns the empty store — and fails
with the malformed-store error when the file exists but its content does
not deserialize. -/
theorem load_json_file_missing_or_malformed :
    ∀ (fs : String → Option String) (path : String),
      (fs path = none →
        load_json_file path fs
          = .ok (Json.obj [], fsWrite fs path "\x7b\x7d"))
      ∧ ∀ c, fs path = some c → json_loads c = none →
          load_json_file path fs = .error .malformed := by
  intro fs path
  constructor
  · intro h
    simp [load_json_file, h]
  · intro c h1 h2
    simp [load_json_file, h1, h2]

/-- C8, witness: loading a path with no file succeeds with the empty
store and creates the empty document; loading a file holding
`"not json"` fails with the malformed-store error. -/
theorem load_json_file_missing_or_malformed_witness :
    load_json_file "video_dict.json" (fun _ => none)
      = .ok (Json.obj [],
          fsWrite (fun _ => none) "video_dict.json" "\x7b\x7d")
    ∧ load_json_file "store.json" (fun _ => some "not json")
      = .error .malformed :=
  ⟨(load_json_file_missing_or_malformed (fun _ => none) "video_dict.json").1 rfl,
    (load_json_file_missing_or_malformed (fun _ => some "not json")
      "store.json").2 "not json" rfl rfl⟩

/-- C1: evaluation of `save_to_json` at a failing input.  The store at
`"store.json"` holds the last good state `"GOOD"`; serialization fails
right after `open(json_path, "w")` truncated the file.  The call
re-raises and does write the timestamped backup first — but the backup
holds the truncated file (`""`), not the last good state, and `"GOOD"`
survives nowhere: the `open` already destroyed it before the `except`
block copied. -/
theorem save_to_json_backup_loses_last_good_state :
    (save_to_json (.fail "") "store.json" "20250101_000000"
        (fsWrite (fun _ => none) "store.json" "GOOD")).isRaised = true
    ∧ (save_to_json (.fail "") "store.json" "20250101_000000"
        (fsWrite (fun _ => none) "store.json" "GOOD")).fsOf
        "store.json.20250101_000000.bak" = some ""
    ∧ (save_to_json (.fail "") "store.json" "20250101_000000"
        (fsWrite (fun _ => none) "store.json" "GOOD")).fsOf
        "store.json" = some ""
    ∧ ∀ q, (save_to_json (.fail "") "store.json" "20250101_000000"
        (fsWrite (fun _ => none) "store.json" "GOOD")).fsOf q
        ≠ some "GOOD" := by
  refine ⟨rfl, rfl, rfl, ?_⟩
  intro q
  show (fsWrite (fsWrite (fsWrite (fsWrite (fun _ => none) "store.json" "GOOD")
      "store.json" "") "store.json" "") "store.json.20250101_000000.bak" "") q
      ≠ some "GOOD"
  simp only [fsWrite]
  split_ifs <;> decide

/-- C9: in both batch loops — the transcript downloader's
`process_videos` and the monitor's per-video loop in `process_channel` —
a fetch failure for one item leaves the final state exactly as if that
item had not been in the batch: only the failing item is skipped, every
other item is still processed. -/
theorem batch_failure_skips_only_that_item :
    (∀ (fetch : String → TranscriptResult) (source_name now tpath : String)
        (vs1 vs2 : List Video) (bad : Video) (dict : List (String × Json))
        (fs : String → Option Json) (e : String),
        fetch bad.id = .failure e →
        process_videos fetch source_name now tpath (vs1 ++ bad :: vs2) dict fs
          = process_videos fetch source_name now tpath (vs1 ++ vs2) dict fs)
    ∧ (∀ (fetchT : String → String) (analyze : String → List Json)
        (now : String) (vs1 vs2 : List Video) (bad : Video)
        (analyses : List (String × Json))
        (results : List (Video × List Json)),
        fetchT bad.id = "" →
        process_channel_videos fetchT analyze now (vs1 ++ bad :: vs2)
            analyses results
          = process_channel_videos fetchT analyze now (vs1 ++ vs2)
            analyses results) := by
  constructor
  · intro fetch source_name now tpath vs1 vs2 bad dict fs e hbad
    induction vs1 generalizing dict fs with
    | nil =>
        simp only [List.nil_append]
        cases h1 : lookupA dict bad.id with
        | some v => simp [process_videos, h1]
        | none => simp [process_videos, h1, hbad]
    | cons v vs1 ih =>
        simp only [List.cons_append]
        cases h1 : lookupA dict v.id with
        | some w => simp only [process_videos, h1]; exact ih dict fs
        | none =>
            cases h2 : fetch v.id with
            | failure err =>
                simp only [process_videos, h1, h2]
                exact ih dict fs
            | success t =>
                simp only [process_videos, h1, h2]
                exact ih _ _
  · intro fetchT analyze now vs1 vs2 bad analyses results hbad
    induction vs1 generalizing analyses results with
    | nil =>
        simp only [List.nil_append]
        simp [process_channel_videos, hbad]
    | cons v vs1 ih =>
        simp only [List.cons_append]
        by_cases h1 : fetchT v.id = ""
        · simp only [process_channel_videos, h1, if_pos]
          exact ih analyses results
        · simp only [process_channel_videos, h1, if_neg, if_false]
          exact ih _ _

/-- C9, witness: in a three-item batch whose middle item's transcript
fetch fails, both loops end in exactly the state they reach on the batch
without that item. -/
theorem batch_failure_skips_only_that_item_witness :
    process_videos
        (fun id => if id = "bad" then .failure "no transcript"
          else .success ("T-" ++ id))
        "src" "2025-01-01" "transcripts.json"
        [⟨"v1", "t1", "p1", "u1"⟩, ⟨"bad", "t2", "p2", "u2"⟩,
          ⟨"v2", "t3", "p3", "u3"⟩] [] (fun _ => none)
      = process_videos
        (fun id => if id = "bad" then .failure "no transcript"
          else .success ("T-" ++ id))
        "src" "2025-01-01" "transcripts.json"
        [⟨"v1", "t1", "p1", "u1"⟩, ⟨"v2", "t3", "p3", "u3"⟩] []
        (fun _ => none)
    ∧ process_channel_videos (fun id => if id = "bad" then "" else "T")
        (fun t => [Json.str t]) "now"
        [⟨"v1", "t1", "p1", "u1"⟩, ⟨"bad", "t2", "p2", "u2"⟩,
          ⟨"v2", "t3", "p3", "u3"⟩] [] []
      = process_channel_videos (fun id => if id = "bad" then "" else "T")
        (fun t => [Json.str t]) "now"
        [⟨"v1", "t1", "p1", "u1"⟩, ⟨"v2", "t3", "p3", "u3"⟩] [] [] :=
  ⟨batch_failure_skips_only_that_item.1
      (fun id => if id = "bad" then .failure "no transcript"
        else .success ("T-" ++ id))
      "src" "2025-01-01" "transcripts.json"
      [⟨"v1", "t1", "p1", "u1"⟩] [⟨"v2", "t3", "p3", "u3"⟩]
      ⟨"bad", "t2", "p2", "u2"⟩ [] (fun _ => none) "no transcript" rfl,
    batch_failure_skips_only_that_item.2
      (fun id => if id = "bad" then "" else "T") (fun t => [Json.str t]) "now"
      [⟨"v1", "t1", "p1", "u1"⟩] [⟨"v2", "t3", "p3", "u3"⟩]
      ⟨"bad", "t2", "p2", "u2"⟩ [] [] rfl⟩

/-- C2, counterexample: the actual pipeline does not follow the spec's
fixed attempt order.  On `x {"a": "True"}` (the brace characters written
as they stand in the input) the spec's order parses the extracted
substring alone (step 3) and returns `{"a": "True"}` unchanged, while
`clean_and_parse_json` — which has no retry between extraction and
normalization — rewrites the `True` inside the string literal and
returns `{"a": "true"}`. -/
theorem clean_and_parse_json_differs_from_spec_order :
    clean_and_parse_json "x \x7b\"a\": \"True\"\x7d"
      ≠ specParse "x \x7b\"a\": \"True\"\x7d" := by
  intro hcontra
  have h1 : clean_and_parse_json "x \x7b\"a\": \"True\"\x7d"
      = .ok (Json.obj [("a", Json.str "true")]) := rfl
  have h2 : specParse "x \x7b\"a\": \"True\"\x7d"
      = .ok (Json.obj [("a", Json.str "True")]) := rfl
  rw [h1, h2] at hcontra
  injection hcontra with hv
  injection hv with hfields
  injection hfields with hhead htail
  injection hhead with hfst hsnd
  injection hsnd with hs
  exact absurd hs (by decide)

/-- C2, amended: `clean_and_parse_json` applies its attempts in this
fixed order, each retry short-circuiting on success — direct parse;
extraction of the first JSON-like substring (failing with the fixed
no-block error when there is none, with no fence-stripping attempt);
quote and `True`/`False`/`None` normalization together with
trailing-comma removal, with no parse retry of the extracted substring
before them, then one retry; control-character stripping, then the final
retry whose failure carries the transformed substring. -/
theorem clean_and_parse_json_attempt_order :
    ∀ raw : String,
      (∀ v, json_loads raw = some v → clean_and_parse_json raw = .ok v)
      ∧ (json_loads raw = none → extractJsonLike raw = none →
          clean_and_parse_json raw = .error (.noJsonBlock noBlockMsg))
      ∧ ∀ sub, json_loads raw = none → extractJsonLike raw = some sub →
          (∀ v, json_loads (removeTrailingCommas (normalizeQuasi sub)) = some v →
              clean_and_parse_json raw = .ok v)
          ∧ (json_loads (removeTrailingCommas (normalizeQuasi sub)) = none →
              (∀ v, json_loads (stripControl
                    (removeTrailingCommas (normalizeQuasi sub))) = some v →
                  clean_and_parse_json raw = .ok v)
              ∧ (json_loads (stripControl
                    (removeTrailingCommas (normalizeQuasi sub))) = none →
                  clean_and_parse_json raw = .error (.decodeError
                    (stripControl (removeTrailingCommas (normalizeQuasi sub)))))) := by
  intro raw
  refine ⟨?_, ?_, ?_⟩
  · intro v h
    simp [clean_and_parse_json, h]
  · intro h1 h2
    simp [clean_and_parse_json, h1, h2]
  · intro sub h1 h2
    refine ⟨?_, ?_⟩
    · intro v h3
      simp [clean_and_parse_json, h1, h2, h3]
    · intro h3
      refine ⟨?_, ?_⟩
      · intro v h4
        simp [clean_and_parse_json, h1, h2, h3, h4]
      · intro h4
        simp [clean_and_parse_json, h1, h2, h3, h4]

/-- C2, witness: on `x {'a': True,}` (braces as they stand in the input)
the direct parse fails, the substring is extracted, and the combined
normalization and trailing-comma removal make the retry succeed with
`{"a": true}`. -/
theorem clean_and_parse_json_attempt_order_witness :
    clean_and_parse_json "x \x7b'a': True,\x7d"
      = .ok (Json.obj [("a", Json.bool true)]) :=
  ((clean_and_parse_json_attempt_order "x \x7b'a': True,\x7d").2.2
      "\x7b'a': True,\x7d" rfl rfl).1 (Json.obj [("a", Json.bool true)]) rfl

/-- Every attempt of `clean_and_parse_json`'s actual pipeline fails:
the direct parse fails, and either no JSON-like block exists or both the
retry after normalization and trailing-comma removal and the retry after
control-character stripping fail. -/
def attemptsAllFail (raw : String) : Prop :=
  json_loads raw = none ∧
    ∀ sub, extractJsonLike raw = some sub →
      json_loads (removeTrailingCommas (normalizeQuasi sub)) = none ∧
      json_loads (stripControl (removeTrailingCommas (normalizeQuasi sub))) = none

/-- C3, amended: `clean_and_parse_json` fails exactly when every attempt
of its pipeline fails — every input on which some attempt succeeds
returns the parsed value — and `"not json at all"` is such a failing
input.  (The error does not carry the original raw text; see the
counterexample.) -/
theorem clean_and_parse_json_fails_iff_attempts_fail :
    (∀ raw : String,
        (∃ e, clean_and_parse_json raw = .error e) ↔ attemptsAllFail raw)
    ∧ ∃ e, clean_and_parse_json "not json at all" = .error e := by
  constructor
  · intro raw
    constructor
    · rintro ⟨e, he⟩
      cases h1 : json_loads raw with
      | some v =>
          rw [show clean_and_parse_json raw = .ok v from by
            simp [clean_and_parse_json, h1]] at he
          cases he
      | none =>
          refine ⟨h1, ?_⟩
          intro sub hsub
          cases h3 : json_loads (removeTrailingCommas (normalizeQuasi sub)) with
          | some v =>
              rw [show clean_and_parse_json raw = .ok v from by
                simp [clean_and_parse_json, h1, hsub, h3]] at he
              cases he
          | none =>
              cases h4 : json_loads (stripControl
                  (removeTrailingCommas (normalizeQuasi sub))) with
              | some v =>
                  rw [show clean_and_parse_json raw = .ok v from by
                    simp [clean_and_parse_json, h1, hsub, h3, h4]] at he
                  cases he
              | none => exact ⟨rfl, rfl⟩
    · rintro ⟨h1, hrest⟩
      cases h2 : extractJsonLike raw with
      | none =>
          exact ⟨.noJsonBlock noBlockMsg, by
            simp [clean_and_parse_json, h1, h2]⟩
      | some sub =>
          obtain ⟨h3, h4⟩ := hrest sub h2
          exact ⟨.decodeError (stripControl (removeTrailingCommas
              (normalizeQuasi sub))), by
            simp [clean_and_parse_json, h1, h2, h3, h4]⟩
  · exact ⟨.noJsonBlock noBlockMsg, rfl⟩

/-- C3, counterexample: the failure on `"not json at all"` is the fixed
`ValueError` message (and the final-attempt failure carries the
transformed substring) — the raised error does not carry the original
raw text. -/
theorem clean_and_parse_json_error_payload_not_raw :
    clean_and_parse_json "not json at all"
      = .error (.noJsonBlock noBlockMsg)
    ∧ noBlockMsg ≠ "not json at all" :=
  ⟨rfl, by decide⟩
